import Mathlib

/-!
Shallow embedding of `src/assets/custom.js` (AI Research Agent dashboard
script): key-value preference storage, theme and sidebar management,
idempotent DOM decoration, debounced mutation handling, and the bounded
bootstrap poll.  DOM elements are modelled as finite trees of class lists,
inline-style maps and children; the browser world visible to the script is a
record of the storage contents, the app and sidebar root elements, the
dispatched custom events and the console warnings/errors.
-/

/-- Key-value map, used both for the persistence backend (`localStorage`)
and for element attribute / inline-style maps.  Modelled as an association
list where `storeSet` replaces any previous binding of the key. -/
abbrev Store := List (String × String)

/-- `storage.getItem(key)` / `el.getAttribute(name)`: first binding wins. -/
def storeGet : Store → String → Option String
  | [], _ => none
  | (k, v) :: s, key => if k = key then some v else storeGet s key

/-- `storage.setItem(key, value)` / `el.setAttribute(name, value)`:
one binding per key. -/
def storeSet (s : Store) (key value : String) : Store :=
  (key, value) :: s.filter (fun p => p.1 ≠ key)

/-- JavaScript `x || d` for a nullable string `x`: `null` and the empty
string are falsy, every other string is truthy. -/
def jsStringOr (x : Option String) (d : String) : String :=
  match x with
  | some s => if s = "" then d else s
  | none => d

-- ===== CONFIGURATION (the CONFIG literal, lines 7-21) =====

/-- `CONFIG.themes`. -/
def themes : List String := ["Light", "Dark", "Cyberpunk"]

/-- `CONFIG.defaultTheme`. -/
def defaultTheme : String := "Light"

/-- `CONFIG.storageKeys.theme`. -/
def themeKey : String := "aiResearchAgent_theme"

/-- `CONFIG.storageKeys.sidebarCollapsed`. -/
def sidebarCollapsedKey : String := "aiResearchAgent_sidebarCollapsed"

-- ===== DOM ELEMENTS =====

/-- A DOM element: its class list, its inline style map and its child
elements (non-element children are irrelevant to the script and omitted). -/
inductive Elem where
  | mk (classes : List String) (styles : Store) (children : List Elem)

/-- `el.classList.contains(c)` / `el.matches('.c')` for a class selector. -/
def elemMatchesClass : Elem → String → Bool
  | .mk classes _ _, c => classes.contains c

mutual

/-- Does the subtree rooted at `e` (including `e` itself) contain an element
with class `c`? -/
def subtreeHasClass : Elem → String → Bool
  | .mk classes _ children, c => classes.contains c || childrenHaveClass children c

/-- Does any element of the forest contain (at itself or below) class `c`? -/
def childrenHaveClass : List Elem → String → Bool
  | [], _ => false
  | e :: es, c => subtreeHasClass e c || childrenHaveClass es c

end

/-- `el.querySelector('.c') !== null`: a strict descendant of `el` has
class `c`. -/
def querySelectorClass : Elem → String → Bool
  | .mk _ _ children, c => childrenHaveClass children c

mutual

/-- Number of elements in the subtree rooted at `e` (including `e`) that
carry class `c`. -/
def subtreeCountClass : Elem → String → Nat
  | .mk classes _ children, c =>
      (if classes.contains c then 1 else 0) + childrenCountClass children c

/-- Number of elements in the forest carrying class `c`. -/
def childrenCountClass : List Elem → String → Nat
  | [], _ => 0
  | e :: es, c => subtreeCountClass e c + childrenCountClass es c

end

/-- Number of strict descendants of `e` carrying class `c`. -/
def descendantCountClass : Elem → String → Nat
  | .mk _ _ children, c => childrenCountClass children c

-- ===== UI ENHANCEMENTS (decorateSummaryBox, lines 132-177) =====

/-- The icon sub-element created at lines 137-146 (class `summary-icon`,
absolutely positioned). -/
def iconElem : Elem :=
  .mk ["summary-icon"]
    [("position", "absolute"), ("top", "12px"), ("right", "12px"),
     ("font-size", "16px"), ("opacity", "0.7")] []

/-- The progress-bar styles assigned at lines 153-162 (`width: 0%`). -/
def progressBaseStyles : Store :=
  [("position", "absolute"), ("bottom", "0"), ("left", "0"),
   ("height", "2px"),
   ("background", "linear-gradient(90deg, var(--accent-primary), var(--accent-secondary))"),
   ("width", "0%"), ("transition", "width 0.3s ease"),
   ("border-radius", "0 0 8px 8px")]

/-- The progress sub-element (class `summary-progress`).  Under a
reduced-motion preference its final styles (`width: 100%`, `opacity: 0.3`)
are applied synchronously (lines 173-176); otherwise the animation timers
of lines 166-172 apply them later, so at call completion the element still
has `width: 0%`. -/
def progressElem (reducedMotion : Bool) : Elem :=
  .mk ["summary-progress"]
    (if reducedMotion
      then storeSet (storeSet progressBaseStyles "width" "100%") "opacity" "0.3"
      else progressBaseStyles) []

/-- `decorateSummaryBox(summaryBox)` (lines 132-177): skip if the box
already contains a `.summary-icon` descendant; otherwise set
`position: relative` on the box and append the icon and progress
sub-elements. -/
def decorateSummaryBox (reducedMotion : Bool) (summaryBox : Elem) : Elem :=
  if querySelectorClass summaryBox "summary-icon" then summaryBox
  else
    match summaryBox with
    | .mk classes styles children =>
        .mk classes (storeSet styles "position" "relative")
          (children ++ [iconElem, progressElem reducedMotion])

/-- `enhanceNewElements()` (lines 179-185) restricted to its effect on the
candidate set: decorate every `.summary-box` element of the document. -/
def enhanceNewElements (reducedMotion : Bool) (summaryBoxes : List Elem) : List Elem :=
  summaryBoxes.map (decorateSummaryBox reducedMotion)

-- ===== LEMMAS ABOUT CLASS SEARCH AND COUNTING =====

mutual

theorem subtreeHasClass_eq_false : ∀ (e : Elem) (c : String),
    subtreeCountClass e c = 0 → subtreeHasClass e c = false
  | .mk classes styles children, c, h => by
      simp only [subtreeCountClass] at h
      simp only [subtreeHasClass]
      cases hcc : classes.contains c with
      | true => rw [hcc] at h; simp at h
      | false =>
          rw [hcc] at h
          simp at h
          rw [childrenHaveClass_eq_false children c h]
          rfl

theorem childrenHaveClass_eq_false : ∀ (cs : List Elem) (c : String),
    childrenCountClass cs c = 0 → childrenHaveClass cs c = false
  | [], _, _ => rfl
  | e :: es, c, h => by
      simp only [childrenCountClass] at h
      simp only [childrenHaveClass]
      rw [subtreeHasClass_eq_false e c (by omega),
        childrenHaveClass_eq_false es c (by omega)]
      rfl

end

theorem childrenCountClass_append (xs ys : List Elem) (c : String) :
    childrenCountClass (xs ++ ys) c =
      childrenCountClass xs c + childrenCountClass ys c := by
  induction xs with
  | nil => simp [childrenCountClass]
  | cons e es ih =>
      simp only [List.cons_append, childrenCountClass, List.append_eq, ih]
      omega

theorem childrenHaveClass_append (xs ys : List Elem) (c : String) :
    childrenHaveClass (xs ++ ys) c =
      (childrenHaveClass xs c || childrenHaveClass ys c) := by
  induction xs with
  | nil => simp [childrenHaveClass]
  | cons e es ih =>
      simp only [List.cons_append, childrenHaveClass, List.append_eq, ih, Bool.or_assoc]

theorem iconElem_count_icon : subtreeCountClass iconElem "summary-icon" = 1 := by
  decide

theorem iconElem_count_progress : subtreeCountClass iconElem "summary-progress" = 0 := by
  decide

theorem iconElem_has_icon : subtreeHasClass iconElem "summary-icon" = true := by
  decide

theorem progressElem_count_icon (r : Bool) :
    subtreeCountClass (progressElem r) "summary-icon" = 0 := by
  cases r <;> decide

theorem progressElem_count_progress (r : Bool) :
    subtreeCountClass (progressElem r) "summary-progress" = 1 := by
  cases r <;> decide

-- ===== DECORATION LEMMAS =====

/-- An already-decorated box (one that contains a `.summary-icon`
descendant) is returned unchanged, line 134. -/
theorem decorateSummaryBox_of_done (r : Bool) (b : Elem)
    (h : querySelectorClass b "summary-icon" = true) :
    decorateSummaryBox r b = b := by
  simp [decorateSummaryBox, h]

/-- After a decoration pass, the box always contains a `.summary-icon`
descendant. -/
theorem decorate_query_icon (r : Bool) (b : Elem) :
    querySelectorClass (decorateSummaryBox r b) "summary-icon" = true := by
  cases b with
  | mk classes styles children =>
      cases hq : querySelectorClass (Elem.mk classes styles children) "summary-icon" with
      | true => rw [decorateSummaryBox_of_done r _ hq]; exact hq
      | false =>
          simp only [decorateSummaryBox, hq, Bool.false_eq_true, if_false]
          simp only [querySelectorClass, childrenHaveClass_append]
          simp [childrenHaveClass, iconElem_has_icon]

/-- A second decoration pass on any element is a no-op. -/
theorem decorateSummaryBox_idem (r : Bool) (b : Elem) :
    decorateSummaryBox r (decorateSummaryBox r b) = decorateSummaryBox r b :=
  decorateSummaryBox_of_done r _ (decorate_query_icon r b)

/-- Decorating a not-yet-decorated box yields exactly one icon and one
progress descendant. -/
theorem decorate_count_of_clean (r : Bool) (b : Elem)
    (hicon : descendantCountClass b "summary-icon" = 0)
    (hprog : descendantCountClass b "summary-progress" = 0) :
    descendantCountClass (decorateSummaryBox r b) "summary-icon" = 1 ∧
    descendantCountClass (decorateSummaryBox r b) "summary-progress" = 1 := by
  cases b with
  | mk classes styles children =>
      simp only [descendantCountClass] at hicon hprog
      have hq : querySelectorClass (Elem.mk classes styles children) "summary-icon" = false := by
        simp only [querySelectorClass]
        exact childrenHaveClass_eq_false children _ hicon
      simp only [decorateSummaryBox, hq, Bool.false_eq_true, if_false]
      simp only [descendantCountClass, childrenCountClass_append, hicon, hprog,
        childrenCountClass, iconElem_count_icon, iconElem_count_progress,
        progressElem_count_icon, progressElem_count_progress]
      exact ⟨trivial, trivial⟩

/-- The enhancement pass is idempotent on the candidate set. -/
theorem enhanceNewElements_idem (r : Bool) (bs : List Elem) :
    enhanceNewElements r (enhanceNewElements r bs) = enhanceNewElements r bs := by
  simp only [enhanceNewElements, List.map_map]
  exact List.map_congr_left (fun b _ => by
    simp only [Function.comp_apply, decorateSummaryBox_idem])

/-- Iterating the enhancement pass at least once is the same as running it
exactly once. -/
theorem enhanceNewElements_iterate (r : Bool) (bs : List Elem) (n : Nat) (hn : 1 ≤ n) :
    (enhanceNewElements r)^[n] bs = enhanceNewElements r bs := by
  induction n with
  | zero => omega
  | succ m ih =>
      cases Nat.eq_or_lt_of_le hn with
      | inl h => rw [← h]; simp
      | inr h =>
          rw [Function.iterate_succ_apply', ih (by omega)]
          exact enhanceNewElements_idem r bs

/-- C1: decoration is idempotent — starting from undecorated candidates,
any positive number of enhancement passes leaves exactly one `.summary-icon`
marker and one `.summary-progress` sub-element per candidate, and a second
`decorateSummaryBox` pass on any element whatsoever is a no-op. -/
theorem c1_decoration_idempotent (r : Bool) (summaryBoxes : List Elem)
    (hclean : ∀ b ∈ summaryBoxes,
      descendantCountClass b "summary-icon" = 0 ∧
      descendantCountClass b "summary-progress" = 0)
    (n : Nat) (hn : 1 ≤ n) :
    (∀ b ∈ (enhanceNewElements r)^[n] summaryBoxes,
        descendantCountClass b "summary-icon" = 1 ∧
        descendantCountClass b "summary-progress" = 1) ∧
    (∀ e : Elem, decorateSummaryBox r (decorateSummaryBox r e) = decorateSummaryBox r e) := by
  constructor
  · intro b hb
    rw [enhanceNewElements_iterate r summaryBoxes n hn] at hb
    simp only [enhanceNewElements, List.mem_map] at hb
    obtain ⟨b0, hb0, rfl⟩ := hb
    exact decorate_count_of_clean r b0 (hclean b0 hb0).1 (hclean b0 hb0).2
  · exact fun e => decorateSummaryBox_idem r e

/-- Witness for C1 at a concrete undecorated candidate and two passes. -/
theorem c1_decoration_idempotent_witness :
    (∀ b ∈ (enhanceNewElements false)^[2] [Elem.mk ["summary-box"] [] []],
        descendantCountClass b "summary-icon" = 1 ∧
        descendantCountClass b "summary-progress" = 1) ∧
    (∀ e : Elem, decorateSummaryBox false (decorateSummaryBox false e) =
        decorateSummaryBox false e) :=
  c1_decoration_idempotent false [Elem.mk ["summary-box"] [] []]
    (by decide) 2 (by decide)

-- ===== BROWSER WORLD STATE =====

/-- The custom events dispatched on `window` (lines 71 and 114-116). -/
inductive Evt where
  | themeChanged (theme : String)
  | sidebarToggled (collapsed : Bool)
deriving DecidableEq

/-- The part of the browser visible to the script: the persistence backend,
the `.stApp` root element (presence + attribute map), the `.stSidebar`
element (presence + class list), the `.summary-box` candidate elements, the
dispatched custom events, the console warnings and errors, the
reduced-motion media query and the viewport width. -/
structure DomWorld where
  storage : Store := []
  appPresent : Bool := false
  appAttrs : Store := []
  sidebarPresent : Bool := false
  sidebarClasses : List String := []
  summaryBoxes : List Elem := []
  events : List Evt := []
  warnings : List String := []
  errors : List String := []
  reducedMotion : Bool := false
  innerWidth : Nat := 1024

/-- `el.classList.add(c)`: a DOMTokenList holds no duplicates. -/
def classListAdd (classes : List String) (c : String) : List String :=
  if classes.contains c then classes else classes ++ [c]

/-- `el.classList.remove(c)`: removes every occurrence of the token. -/
def classListRemove (classes : List String) (c : String) : List String :=
  classes.filter (fun x => x ≠ c)

-- ===== THEME MANAGEMENT (lines 59-93) =====

/-- `setTheme(theme)` (lines 59-73): substitute the default for an unknown
name (with a console warning); if the `.stApp` element is present, write the
`data-theme` attribute, persist the theme and dispatch `themeChanged`;
otherwise do nothing further. -/
def setTheme (theme : String) (w : DomWorld) : DomWorld :=
  let w1 := if themes.contains theme then w
    else { w with warnings :=
      w.warnings ++ ["Invalid theme: " ++ theme ++ ". Using default."] }
  let t := if themes.contains theme then theme else defaultTheme
  if w1.appPresent then
    { w1 with
      appAttrs := storeSet w1.appAttrs "data-theme" t
      storage := storeSet w1.storage themeKey t
      events := w1.events ++ [Evt.themeChanged t] }
  else w1

/-- `getTheme()` (lines 75-77): `storage.getItem(key) || defaultTheme`;
note the JavaScript `||`, under which an empty persisted string is falsy. -/
def getTheme (s : Store) : String :=
  jsStringOr (storeGet s themeKey) defaultTheme

/-- The index of the theme that `toggleTheme` switches to (lines 79-84):
`(themes.indexOf(current) + 1) % themes.length`, where `indexOf` yields `-1`
for an unknown theme, so `(-1 + 1) % 3 = 0`. -/
def nextThemeIndex (currentTheme : String) : Nat :=
  match themes.findIdx? (fun t => t == currentTheme) with
  | some i => (i + 1) % themes.length
  | none => 0

/-- `toggleTheme()` (lines 79-84). -/
def toggleTheme (w : DomWorld) : DomWorld :=
  setTheme (themes.getD (nextThemeIndex (getTheme w.storage)) "") w

/-- `resetTheme()` (lines 86-88). -/
def resetTheme (w : DomWorld) : DomWorld :=
  setTheme defaultTheme w

-- ===== SIDEBAR MANAGEMENT (lines 96-129) =====

/-- `toggleSidebar()` (lines 96-118): requires both `.stSidebar` and
`.stApp` to be present; flips the `collapsed` class, mirrors the new state
into the `data-sidebar-collapsed` attribute and the storage key, and
dispatches `sidebarToggled` with the new value. -/
def toggleSidebar (w : DomWorld) : DomWorld :=
  if w.sidebarPresent && w.appPresent then
    let isCollapsed := w.sidebarClasses.contains "collapsed"
    let w1 :=
      if isCollapsed then
        { w with
          sidebarClasses := classListRemove w.sidebarClasses "collapsed"
          appAttrs := storeSet w.appAttrs "data-sidebar-collapsed" "false"
          storage := storeSet w.storage sidebarCollapsedKey "false" }
      else
        { w with
          sidebarClasses := classListAdd w.sidebarClasses "collapsed"
          appAttrs := storeSet w.appAttrs "data-sidebar-collapsed" "true"
          storage := storeSet w.storage sidebarCollapsedKey "true" }
    { w1 with events := w1.events ++ [Evt.sidebarToggled (!isCollapsed)] }
  else w

/-- `applySavedSidebarState()` (lines 120-129): reads the persisted flag;
only when it is the string "true" and both elements are present does it add
the class and attribute (no event is dispatched). -/
def applySavedSidebarState (w : DomWorld) : DomWorld :=
  let isCollapsed := storeGet w.storage sidebarCollapsedKey == some "true"
  if w.sidebarPresent && w.appPresent && isCollapsed then
    { w with
      sidebarClasses := classListAdd w.sidebarClasses "collapsed"
      appAttrs := storeSet w.appAttrs "data-sidebar-collapsed" "true" }
  else w

-- ===== INITIALIZATION (initUI, lines 281-317) =====

/-- The world-level effect of `enhanceNewElements()` at line 291: decorate
every `.summary-box` currently in the document. -/
def enhanceWorld (w : DomWorld) : DomWorld :=
  { w with summaryBoxes := enhanceNewElements w.reducedMotion w.summaryBoxes }

/-- The debounced resize handler of lines 300-310: adds the `mobile` class
to the sidebar when the viewport is at most 768 px wide, removes it
otherwise; `initUI` invokes it once synchronously (line 310). -/
def handleResize (w : DomWorld) : DomWorld :=
  if w.sidebarPresent && decide (w.innerWidth ≤ 768) then
    { w with sidebarClasses := classListAdd w.sidebarClasses "mobile" }
  else if w.sidebarPresent then
    { w with sidebarClasses := classListRemove w.sidebarClasses "mobile" }
  else w

/-- A fault raised somewhere inside the `try` block: its message together
with the world as it stood at the throw point (side effects performed
before the throw persist). -/
abbrev InitFault := String × DomWorld

/-- The body of `initUI` (lines 283-312): apply the saved theme, apply the
saved sidebar state, run one enhancement pass, and run the resize handler
once.  `setupMutationObserver` and `attachEventHandlers` only register
callbacks and change no state modelled here.  The embedded body raises no
fault, but it is typed in `Except` so that the failure boundary below is
the one of the source. -/
def initUIBody (w : DomWorld) : Except InitFault DomWorld :=
  let w1 := setTheme (getTheme w.storage) w
  let w2 := applySavedSidebarState w1
  let w3 := enhanceWorld w2
  let w4 := handleResize w3
  .ok w4

/-- The `try ... catch` failure boundary of lines 282-316 around an
arbitrary body: a fault is logged via `console.error` and swallowed, and
the routine returns normally. -/
def initUIWith (body : DomWorld → Except InitFault DomWorld) (w : DomWorld) : DomWorld :=
  match body w with
  | .ok w2 => w2
  | .error (e, wt) =>
      { wt with errors := wt.errors ++ ["Error initializing UI: " ++ e] }

/-- `initUI()` (lines 281-317). -/
def initUI : DomWorld → DomWorld :=
  initUIWith initUIBody

-- ===== DEBOUNCE (lines 25-35) =====

/-- Discrete-time semantics of the closure returned by
`debounce(func, wait)`: given the (sorted) times at which the debounced
function is invoked, each invocation at time `t` schedules `func` for
`t + wait` via `setTimeout` after cancelling the previously pending timer,
so the timer armed at `t` actually fires exactly when no later invocation
arrives before `t + wait`.  Returns the times at which `func` runs. -/
def debounceFires (wait : Nat) : List Nat → List Nat
  | [] => []
  | t :: rest =>
      if rest.any (fun s => s < t + wait) then debounceFires wait rest
      else (t + wait) :: debounceFires wait rest

-- ===== MUTATION OBSERVER (lines 200-237) =====

/-- A DOM node delivered in a mutation record: an element, or any
non-element node (text, comment), for which `nodeType !== ELEMENT_NODE`. -/
inductive DomNode where
  | element (e : Elem)
  | nonElement

/-- Lines 213-222: an added node is relevant when it is an element that
matches `.summary-box` or contains a `.summary-box` descendant. -/
def nodeTriggers : DomNode → Bool
  | .element e => elemMatchesClass e "summary-box" || querySelectorClass e "summary-box"
  | .nonElement => false

/-- A mutation record: its type (`childList` or not) and its added nodes. -/
structure MutationRecord where
  isChildList : Bool
  addedNodes : List DomNode

/-- Lines 207-229: `shouldEnhance` is set when some record is a `childList`
mutation with at least one added node and some added node is relevant;
only then is the debounced enhancement invoked. -/
def mutationsTrigger (muts : List MutationRecord) : Bool :=
  muts.any (fun m =>
    m.isChildList && decide (0 < m.addedNodes.length) && m.addedNodes.any nodeTriggers)

-- ===== BOOTSTRAP POLL (streamlitReady, lines 339-351) =====

/-- `setInterval` period of the bootstrap poll (line 346), in ms. -/
def pollIntervalMs : Nat := 500

/-- The `setTimeout` deadline after which the poll is cleared (line 351),
in ms. -/
def pollTimeoutMs : Nat := 10000

/-- State of the `streamlitReady` poll: whether `clearInterval` has run,
whether the `data-ai-agent-initialized` marker attribute has been written,
and how many times the poll has invoked `initUI`. -/
structure PollState where
  cleared : Bool
  markerSet : Bool
  initCount : Nat
deriving DecidableEq

/-- Tick `k` of the poll (fired at time `k * 500` ms).  A tick runs only if
the interval has not been cleared — either by an earlier successful tick or
by the 10 s timeout, so ticks with `k * 500 > 10000` never run.  A running
tick that sees the `.stApp` element present without the marker attribute
sets the marker, invokes `initUI` and clears the interval (lines 340-345).
`present k` is the environment: whether `.stApp` exists at tick `k`; the
marker attribute is written only by the script itself. -/
def pollTick (present : Nat → Bool) (k : Nat) (s : PollState) : PollState :=
  if s.cleared || decide (pollTimeoutMs < pollIntervalMs * k) then s
  else if present k && !s.markerSet then
    { cleared := true, markerSet := true, initCount := s.initCount + 1 }
  else s

/-- The poll state after ticks `1, 2, ..., n`. -/
def pollRun (present : Nat → Bool) : Nat → PollState
  | 0 => { cleared := false, markerSet := false, initCount := 0 }
  | n + 1 => pollTick present (n + 1) (pollRun present n)

-- ===== STORE LEMMAS =====

theorem storeGet_set_eq (s : Store) (k v : String) :
    storeGet (storeSet s k v) k = some v := by
  simp [storeSet, storeGet]

theorem storeGet_filter_ne (s : Store) (k k2 : String) (h : k ≠ k2) :
    storeGet (s.filter (fun p => p.1 ≠ k)) k2 = storeGet s k2 := by
  induction s with
  | nil => rfl
  | cons p rest ih =>
      obtain ⟨pk, pv⟩ := p
      by_cases hpk : pk = k
      · subst hpk
        have hdrop : List.filter (fun p => p.1 ≠ pk) ((pk, pv) :: rest) =
            List.filter (fun p => p.1 ≠ pk) rest := by
          simp [List.filter_cons]
        rw [hdrop, ih]
        simp only [storeGet]
        rw [if_neg h]
      · have hkeep : List.filter (fun p => p.1 ≠ k) ((pk, pv) :: rest) =
            (pk, pv) :: List.filter (fun p => p.1 ≠ k) rest := by
          simp [List.filter_cons, hpk]
        rw [hkeep]
        simp only [storeGet]
        by_cases hp2 : pk = k2
        · rw [if_pos hp2, if_pos hp2]
        · rw [if_neg hp2, if_neg hp2, ih]

theorem storeGet_set_ne (s : Store) (k k2 v : String) (h : k ≠ k2) :
    storeGet (storeSet s k v) k2 = storeGet s k2 := by
  simp only [storeSet, storeGet, if_neg h]
  exact storeGet_filter_ne s k k2 h

theorem getTheme_storeSet (s : Store) (t : String) (ht : t ≠ "") :
    getTheme (storeSet s themeKey t) = t := by
  simp [getTheme, storeGet_set_eq, jsStringOr, ht]

-- ===== setTheme LEMMAS =====

theorem setTheme_appPresent (t : String) (w : DomWorld) :
    (setTheme t w).appPresent = w.appPresent := by
  by_cases h : t ∈ themes <;> by_cases h2 : w.appPresent = true <;>
    simp_all [setTheme]

theorem getTheme_setTheme_valid (t : String) (w : DomWorld)
    (hv : t ∈ themes) (ha : w.appPresent = true) :
    getTheme (setTheme t w).storage = t := by
  have hne : t ≠ "" := by
    intro he
    subst he
    exact absurd hv (by decide)
  simp only [setTheme]
  simp [hv, ha]
  exact getTheme_storeSet w.storage t hne

/-- C2: for every name outside ThemeSet, `setTheme` (with the root element
present) applies the default theme `"Light"` as the `data-theme` attribute,
persists it, and emits the diagnostic warning instead of failing. -/
theorem c2_invalid_theme_falls_back (w : DomWorld) (name : String)
    (hname : name ∉ themes) (happ : w.appPresent = true) :
    storeGet (setTheme name w).appAttrs "data-theme" = some "Light" ∧
    storeGet (setTheme name w).storage themeKey = some "Light" ∧
    (setTheme name w).warnings =
      w.warnings ++ ["Invalid theme: " ++ name ++ ". Using default."] := by
  simp [setTheme, hname, happ, defaultTheme, storeGet_set_eq]

/-- Witness for C2 at a concrete world and the unknown theme "Neon". -/
theorem c2_invalid_theme_falls_back_witness :
    storeGet (setTheme "Neon" { appPresent := true }).appAttrs "data-theme" = some "Light" ∧
    storeGet (setTheme "Neon" { appPresent := true }).storage themeKey = some "Light" ∧
    (setTheme "Neon" { appPresent := true }).warnings =
      ([] : List String) ++ ["Invalid theme: " ++ "Neon" ++ ". Using default."] :=
  c2_invalid_theme_falls_back { appPresent := true } "Neon" (by decide) rfl

/-- C10: when the `.stApp` root element is absent, `setTheme` — for any
argument — leaves the persisted theme, the attribute map and the dispatched
events unchanged. -/
theorem c10_setTheme_no_app (w : DomWorld) (name : String)
    (happ : w.appPresent = false) :
    (setTheme name w).storage = w.storage ∧
    (setTheme name w).appAttrs = w.appAttrs ∧
    (setTheme name w).events = w.events := by
  by_cases h : name ∈ themes <;> simp [setTheme, h, happ]

/-- Witness for C10 at a concrete world without the root element. -/
theorem c10_setTheme_no_app_witness :
    (setTheme "Dark" {}).storage = ({} : DomWorld).storage ∧
    (setTheme "Dark" {}).appAttrs = ({} : DomWorld).appAttrs ∧
    (setTheme "Dark" {}).events = ({} : DomWorld).events :=
  c10_setTheme_no_app {} "Dark" rfl

-- ===== C8: getTheme READ BEHAVIOR =====

/-- Concrete storage refuting C8 as stated: the theme key is present but
holds the empty string. -/
def c8Store : Store := [(themeKey, "")]

/-- C8 counterexample: the persisted empty string is present under the
theme key, yet `getTheme` does not return it (JavaScript `||` treats `""`
as falsy and substitutes the default). -/
theorem c8_counterexample :
    storeGet c8Store themeKey = some "" ∧ getTheme c8Store ≠ "" := by
  decide

/-- C8 corrected: `getTheme` returns the persisted string whenever it is
present and non-empty (with no validation against ThemeSet), and returns
the default when the key is absent — or when the persisted string is empty,
the one case the claim missed. -/
theorem c8_getTheme_read (s : Store) :
    (∀ v, storeGet s themeKey = some v → v ≠ "" → getTheme s = v) ∧
    (storeGet s themeKey = none → getTheme s = defaultTheme) ∧
    (storeGet s themeKey = some "" → getTheme s = defaultTheme) := by
  refine ⟨fun v hv hne => ?_, fun h => ?_, fun h => ?_⟩ <;>
    simp [getTheme, jsStringOr, *]

/-- Witness for C8 (corrected): a persisted value outside ThemeSet is
returned verbatim. -/
theorem c8_getTheme_read_witness : getTheme [(themeKey, "Emerald")] = "Emerald" :=
  (c8_getTheme_read [(themeKey, "Emerald")]).1 "Emerald" (by decide) (by decide)

-- ===== C3: THEME CYCLE =====

/-- The successor in the spec's fixed theme order
(`Light → Dark → Cyberpunk → Light`), stated from the spec's words for
comparison with what `toggleTheme` computes. -/
def specNextTheme : String → String
  | "Light" => "Dark"
  | "Dark" => "Cyberpunk"
  | "Cyberpunk" => "Light"
  | t => t

/-- One `toggleTheme` step from a state whose active theme is a member of
ThemeSet (root element present) advances to the successor theme and keeps
the state valid. -/
theorem toggleTheme_step (w : DomWorld) (ha : w.appPresent = true)
    (hv : getTheme w.storage ∈ themes) :
    getTheme (toggleTheme w).storage = specNextTheme (getTheme w.storage) ∧
    (toggleTheme w).appPresent = true ∧
    getTheme (toggleTheme w).storage ∈ themes := by
  simp only [themes, List.mem_cons, List.not_mem_nil, or_false] at hv
  rcases hv with h | h | h
  · rw [toggleTheme, h]
    have hX : themes.getD (nextThemeIndex "Light") "" = "Dark" := by decide
    rw [hX]
    refine ⟨?_, ?_, ?_⟩
    · rw [getTheme_setTheme_valid "Dark" w (by decide) ha]; rfl
    · rw [setTheme_appPresent]; exact ha
    · rw [getTheme_setTheme_valid "Dark" w (by decide) ha]; decide
  · rw [toggleTheme, h]
    have hX : themes.getD (nextThemeIndex "Dark") "" = "Cyberpunk" := by decide
    rw [hX]
    refine ⟨?_, ?_, ?_⟩
    · rw [getTheme_setTheme_valid "Cyberpunk" w (by decide) ha]; rfl
    · rw [setTheme_appPresent]; exact ha
    · rw [getTheme_setTheme_valid "Cyberpunk" w (by decide) ha]; decide
  · rw [toggleTheme, h]
    have hX : themes.getD (nextThemeIndex "Cyberpunk") "" = "Light" := by decide
    rw [hX]
    refine ⟨?_, ?_, ?_⟩
    · rw [getTheme_setTheme_valid "Light" w (by decide) ha]; rfl
    · rw [setTheme_appPresent]; exact ha
    · rw [getTheme_setTheme_valid "Light" w (by decide) ha]; decide

/-- Concrete world refuting C3 as stated: the root element is present but
the persisted theme is a string outside ThemeSet. -/
def c3World : DomWorld := { storage := [(themeKey, "Emerald")], appPresent := true }

/-- C3 counterexample: from a starting state whose active theme is not in
ThemeSet, three applications of `toggleTheme` do not return to the original
active theme (`indexOf` yields `-1`, so the first toggle jumps to the first
theme and the cycle ends on `"Cyberpunk"`, not `"Emerald"`). -/
theorem c3_counterexample :
    getTheme (toggleTheme (toggleTheme (toggleTheme c3World))).storage ≠
      getTheme c3World.storage := by
  decide

/-- C3 corrected: for every starting state whose active theme is a member
of ThemeSet (and with the root element present, since otherwise `setTheme`
does not persist), applying `toggleTheme` three times returns to the
original active theme, and each single application advances to the next
theme in the fixed order. -/
theorem c3_toggle_cycle (w : DomWorld) (ha : w.appPresent = true)
    (hv : getTheme w.storage ∈ themes) :
    getTheme (toggleTheme (toggleTheme (toggleTheme w))).storage = getTheme w.storage ∧
    getTheme (toggleTheme w).storage = specNextTheme (getTheme w.storage) := by
  obtain ⟨h1, ha1, hv1⟩ := toggleTheme_step w ha hv
  obtain ⟨h2, ha2, hv2⟩ := toggleTheme_step _ ha1 hv1
  obtain ⟨h3, _, _⟩ := toggleTheme_step _ ha2 hv2
  refine ⟨?_, h1⟩
  rw [h3, h2, h1]
  simp only [themes, List.mem_cons, List.not_mem_nil, or_false] at hv
  rcases hv with h | h | h <;> rw [h] <;> rfl

/-- A concrete valid world for the C3 witness: persisted theme "Dark",
root element present. -/
def c3DarkWorld : DomWorld := { storage := [(themeKey, "Dark")], appPresent := true }

/-- Witness for C3 (corrected) at a concrete world persisted as "Dark". -/
theorem c3_toggle_cycle_witness :
    getTheme (toggleTheme (toggleTheme (toggleTheme c3DarkWorld))).storage =
      getTheme c3DarkWorld.storage ∧
    getTheme (toggleTheme c3DarkWorld).storage =
      specNextTheme (getTheme c3DarkWorld.storage) :=
  c3_toggle_cycle c3DarkWorld rfl (by decide)

-- ===== C4: SIDEBAR DOUBLE TOGGLE =====

theorem classListRemove_contains (cs : List String) (c : String) :
    (classListRemove cs c).contains c = false := by
  simp [classListRemove]

theorem classListAdd_contains (cs : List String) (c : String) :
    (classListAdd cs c).contains c = true := by
  by_cases h : cs.contains c = true <;> simp_all [classListAdd]

/-- The string encoding of the collapsed flag written by `toggleSidebar`
(lines 105-110). -/
def boolStr (b : Bool) : String := if b then "true" else "false"

theorem toggleSidebar_not_present (w : DomWorld)
    (hp : (w.sidebarPresent && w.appPresent) = false) :
    toggleSidebar w = w := by
  simp_all [toggleSidebar]

theorem toggleSidebar_fields_collapsed (w : DomWorld)
    (hs : w.sidebarPresent = true) (ha : w.appPresent = true)
    (hc : w.sidebarClasses.contains "collapsed" = true) :
    (toggleSidebar w).sidebarClasses = classListRemove w.sidebarClasses "collapsed" ∧
    (toggleSidebar w).appAttrs = storeSet w.appAttrs "data-sidebar-collapsed" "false" ∧
    (toggleSidebar w).storage = storeSet w.storage sidebarCollapsedKey "false" ∧
    (toggleSidebar w).sidebarPresent = true ∧
    (toggleSidebar w).appPresent = true := by
  simp_all [toggleSidebar]

theorem toggleSidebar_fields_expanded (w : DomWorld)
    (hs : w.sidebarPresent = true) (ha : w.appPresent = true)
    (hc : w.sidebarClasses.contains "collapsed" = false) :
    (toggleSidebar w).sidebarClasses = classListAdd w.sidebarClasses "collapsed" ∧
    (toggleSidebar w).appAttrs = storeSet w.appAttrs "data-sidebar-collapsed" "true" ∧
    (toggleSidebar w).storage = storeSet w.storage sidebarCollapsedKey "true" ∧
    (toggleSidebar w).sidebarPresent = true ∧
    (toggleSidebar w).appPresent = true := by
  simp_all [toggleSidebar]

/-- Concrete world refuting C4 as stated: both elements present, the
sidebar expanded, and the sidebar-collapsed storage key absent. -/
def c4World : DomWorld := { sidebarPresent := true, appPresent := true }

/-- C4 counterexample: starting with no persisted sidebar-collapsed value,
two consecutive toggles leave the key bound to "false" — they do not
restore the original (absent) persisted value. -/
theorem c4_counterexample :
    storeGet (toggleSidebar (toggleSidebar c4World)).storage sidebarCollapsedKey ≠
      storeGet c4World.storage sidebarCollapsedKey := by
  decide

/-- C4 corrected: two consecutive `toggleSidebar` calls always restore the
original `collapsed` CSS-class state; when the sidebar and root elements
are present, the attribute and the persisted key afterwards hold exactly
the string encoding of that original class state — so they are restored
precisely when they already held that encoding (the claim fails only when
the original persisted value or attribute disagreed with, or lacked, that
encoding). -/
theorem c4_double_toggle (w : DomWorld) :
    ((toggleSidebar (toggleSidebar w)).sidebarClasses.contains "collapsed" =
      w.sidebarClasses.contains "collapsed") ∧
    (w.sidebarPresent = true → w.appPresent = true →
      storeGet (toggleSidebar (toggleSidebar w)).appAttrs "data-sidebar-collapsed" =
        some (boolStr (w.sidebarClasses.contains "collapsed")) ∧
      storeGet (toggleSidebar (toggleSidebar w)).storage sidebarCollapsedKey =
        some (boolStr (w.sidebarClasses.contains "collapsed"))) := by
  by_cases hp : (w.sidebarPresent && w.appPresent) = true
  · have hs : w.sidebarPresent = true := (Bool.and_eq_true _ _ |>.mp hp).1
    have ha : w.appPresent = true := (Bool.and_eq_true _ _ |>.mp hp).2
    cases hc : w.sidebarClasses.contains "collapsed" with
    | true =>
        obtain ⟨h1c, h1a, h1s, h1p, h1q⟩ := toggleSidebar_fields_collapsed w hs ha hc
        have hc1 : (toggleSidebar w).sidebarClasses.contains "collapsed" = false := by
          rw [h1c]; exact classListRemove_contains _ _
        obtain ⟨h2c, h2a, h2s, _, _⟩ :=
          toggleSidebar_fields_expanded (toggleSidebar w) h1p h1q hc1
        refine ⟨?_, fun _ _ => ⟨?_, ?_⟩⟩
        · rw [h2c, h1c]; exact classListAdd_contains _ _
        · rw [h2a, storeGet_set_eq]; rfl
        · rw [h2s, storeGet_set_eq]; rfl
    | false =>
        obtain ⟨h1c, h1a, h1s, h1p, h1q⟩ := toggleSidebar_fields_expanded w hs ha hc
        have hc1 : (toggleSidebar w).sidebarClasses.contains "collapsed" = true := by
          rw [h1c]; exact classListAdd_contains _ _
        obtain ⟨h2c, h2a, h2s, _, _⟩ :=
          toggleSidebar_fields_collapsed (toggleSidebar w) h1p h1q hc1
        refine ⟨?_, fun _ _ => ⟨?_, ?_⟩⟩
        · rw [h2c, h1c]
          simp [classListAdd, classListRemove, hc]
        · rw [h2a, storeGet_set_eq]; rfl
        · rw [h2s, storeGet_set_eq]; rfl
  · have hw : toggleSidebar w = w := toggleSidebar_not_present w (by simpa using hp)
    rw [hw, hw]
    exact ⟨rfl, fun hs ha => absurd (by rw [hs, ha]; rfl) hp⟩

/-- A concrete world for the C4 witness whose attribute and persisted value
already encode the class state. -/
def c4ConsistentWorld : DomWorld :=
  { sidebarPresent := true, appPresent := true, sidebarClasses := ["collapsed"],
    appAttrs := [("data-sidebar-collapsed", "true")],
    storage := [(sidebarCollapsedKey, "true")] }

/-- Witness for C4 (corrected) at a concrete consistent world. -/
theorem c4_double_toggle_witness :
    ((toggleSidebar (toggleSidebar c4ConsistentWorld)).sidebarClasses.contains "collapsed" =
      c4ConsistentWorld.sidebarClasses.contains "collapsed") ∧
    storeGet (toggleSidebar (toggleSidebar c4ConsistentWorld)).appAttrs
        "data-sidebar-collapsed" =
      some (boolStr (c4ConsistentWorld.sidebarClasses.contains "collapsed")) ∧
    storeGet (toggleSidebar (toggleSidebar c4ConsistentWorld)).storage
        sidebarCollapsedKey =
      some (boolStr (c4ConsistentWorld.sidebarClasses.contains "collapsed")) :=
  ⟨(c4_double_toggle c4ConsistentWorld).1,
   ((c4_double_toggle c4ConsistentWorld).2 rfl rfl).1,
   ((c4_double_toggle c4ConsistentWorld).2 rfl rfl).2⟩

-- ===== C5: TRAILING-EDGE DEBOUNCE =====

/-- Trailing-edge behavior of the `debounce` closure: along a monotone
sequence of invocation times in which each invocation falls strictly inside
the `wait` window opened by its predecessor (thereby cancelling the
predecessor's pending timer), the wrapped function runs exactly once, at
the last invocation time plus the window. -/
theorem debounceFires_trailing (wait : Nat) :
    ∀ (ts : List Nat), List.Chain' (fun a b => a ≤ b ∧ b < a + wait) ts →
      ∀ (h : ts ≠ []), debounceFires wait ts = [ts.getLast h + wait]
  | [], _, h => absurd rfl h
  | [t], _, _ => by simp [debounceFires]
  | t :: s :: rest, hchain, h => by
      have hpair := (List.chain'_cons.mp hchain).1
      have htail := (List.chain'_cons.mp hchain).2
      have hrec := debounceFires_trailing wait (s :: rest) htail (by simp)
      have hstep : debounceFires wait (t :: s :: rest) =
          if (s :: rest).any (fun x => x < t + wait) then debounceFires wait (s :: rest)
          else (t + wait) :: debounceFires wait (s :: rest) := rfl
      rw [hstep]
      have hany : (s :: rest).any (fun x => decide (x < t + wait)) = true := by
        simp only [List.any_cons, Bool.or_eq_true, decide_eq_true_eq]
        left
        exact hpair.2
      rw [if_pos hany, hrec]
      simp

theorem getLast_map_of_ne_nil {α β : Type} (f : α → β) :
    ∀ (l : List α) (h : l ≠ []) (h2 : l.map f ≠ []),
      (l.map f).getLast h2 = f (l.getLast h)
  | [], h, _ => absurd rfl h
  | [a], _, _ => rfl
  | a :: b :: t, _, _ => by
      simp only [List.map_cons]
      rw [List.getLast_cons_cons, List.getLast_cons_cons]
      exact getLast_map_of_ne_nil f (b :: t) (by simp) (by simp)

/-- C5: with the fixed 250 ms window of `setupMutationObserver`, N ≥ 1
relevant mutation batches (each one passing the `shouldEnhance` filter),
each arriving within the debounce window of the previous one, produce
exactly one enhancement pass, at the last batch time plus the window;
each new trigger cancels the previously scheduled invocation. -/
theorem c5_debounced_enhancement (batches : List (Nat × List MutationRecord))
    (hne : batches ≠ [])
    (hrel : ∀ b ∈ batches, mutationsTrigger b.2 = true)
    (hchain : List.Chain' (fun a b => a.1 ≤ b.1 ∧ b.1 < a.1 + 250) batches) :
    debounceFires 250 ((batches.filter (fun b => mutationsTrigger b.2)).map Prod.fst) =
      [(batches.getLast hne).1 + 250] := by
  have hfilter : batches.filter (fun b => mutationsTrigger b.2) = batches :=
    List.filter_eq_self.mpr hrel
  rw [hfilter]
  have hmapne : batches.map Prod.fst ≠ [] := by
    simpa using hne
  have hchain2 : List.Chain' (fun a b => a ≤ b ∧ b < a + 250) (batches.map Prod.fst) := by
    rw [List.chain'_map]
    exact hchain
  rw [debounceFires_trailing 250 (batches.map Prod.fst) hchain2 hmapne]
  rw [getLast_map_of_ne_nil Prod.fst batches hne hmapne]

/-- A mutation record that passes the observer's relevance filter: a
`childList` mutation adding a `.summary-box` element. -/
def relevantMutation : MutationRecord :=
  { isChildList := true,
    addedNodes := [DomNode.element (.mk ["summary-box"] [] [])] }

/-- Five relevant mutation batches, 50 ms apart. -/
def c5Batches : List (Nat × List MutationRecord) :=
  [(0, [relevantMutation]), (50, [relevantMutation]), (100, [relevantMutation]),
   (150, [relevantMutation]), (200, [relevantMutation])]

/-- Witness for C5: five bursts at 0..200 ms yield exactly one enhancement
pass, at 200 + 250 = 450 ms. -/
theorem c5_debounced_enhancement_witness :
    debounceFires 250 ((c5Batches.filter (fun b => mutationsTrigger b.2)).map Prod.fst) =
      [450] := by
  rw [c5_debounced_enhancement c5Batches (by simp [c5Batches]) (by decide)
    (by norm_num [c5Batches, List.chain'_cons])]
  rfl

-- ===== C6: BOUNDED BOOTSTRAP POLL =====

theorem pollTick_cleared (present : Nat → Bool) (k : Nat) (s : PollState)
    (h : s.cleared = true) : pollTick present k s = s := by
  simp [pollTick, h]

theorem pollTick_late (present : Nat → Bool) (k : Nat) (s : PollState)
    (h : 21 ≤ k) : pollTick present k s = s := by
  have hlt : pollTimeoutMs < pollIntervalMs * k := by
    simp only [pollTimeoutMs, pollIntervalMs]
    omega
  simp [pollTick, hlt]

/-- Invariant of the poll: `initCount` is 1 exactly when the marker has
been set, in which case the interval has also been cleared. -/
theorem pollRun_inv (present : Nat → Bool) (n : Nat) :
    ((pollRun present n).markerSet = false → (pollRun present n).initCount = 0) ∧
    ((pollRun present n).markerSet = true →
      (pollRun present n).initCount = 1 ∧ (pollRun present n).cleared = true) := by
  induction n with
  | zero => exact ⟨fun _ => rfl, fun h => by simp [pollRun] at h⟩
  | succ m ih =>
      rw [pollRun]
      by_cases h1 : ((pollRun present m).cleared ||
          decide (pollTimeoutMs < pollIntervalMs * (m + 1))) = true
      · simp only [pollTick, h1, if_true]
        exact ih
      · by_cases h2 : (present (m + 1) && !(pollRun present m).markerSet) = true
        · have hm : (pollRun present m).markerSet = false := by
            have := (Bool.and_eq_true _ _).mp h2
            simpa using this.2
          simp only [pollTick, h1, Bool.false_eq_true, if_false, h2, if_true]
          exact ⟨fun hx => by simp at hx, fun _ => ⟨by simp [ih.1 hm], trivial⟩⟩
        · simp only [pollTick, h1, Bool.false_eq_true, if_false, h2]
          exact ih

theorem pollRun_frozen (present : Nat → Bool) (n : Nat)
    (hc : (pollRun present n).cleared = true) :
    ∀ m, n ≤ m → pollRun present m = pollRun present n := by
  intro m hnm
  induction m with
  | zero =>
      have h0 : n = 0 := by omega
      rw [h0]
  | succ k ih =>
      rcases Nat.eq_or_lt_of_le hnm with he | hlt
      · rw [he]
      · have hk : n ≤ k := by omega
        rw [pollRun, ih hk, pollTick_cleared present _ _ hc]

theorem pollRun_after_timeout (present : Nat → Bool) (n : Nat) (h : 20 ≤ n) :
    pollRun present n = pollRun present 20 := by
  induction n with
  | zero => omega
  | succ m ih =>
      rcases Nat.eq_or_lt_of_le h with he | hlt
      · rw [← he]
      · have hm : 20 ≤ m := by omega
        rw [pollRun, ih hm, ← ih hm, pollTick_late present _ _ (by omega), ih hm]

theorem pollRun_no_present (present : Nat → Bool) (n : Nat)
    (h : ∀ i, 1 ≤ i → i ≤ n → present i = false) :
    pollRun present n = { cleared := false, markerSet := false, initCount := 0 } := by
  induction n with
  | zero => rfl
  | succ m ih =>
      rw [pollRun, ih (fun i h1 h2 => h i h1 (by omega))]
      by_cases hk : pollTimeoutMs < pollIntervalMs * (m + 1) <;>
        simp [pollTick, hk, h (m + 1) (by omega) (Nat.le_refl _)]

theorem pollRun_success (present : Nat → Bool) (j : Nat)
    (h1 : 1 ≤ j) (h20 : j ≤ 20) (hp : present j = true)
    (hfirst : ∀ i, 1 ≤ i → i < j → present i = false) :
    pollRun present j = { cleared := true, markerSet := true, initCount := 1 } := by
  cases j with
  | zero => omega
  | succ m =>
      rw [pollRun, pollRun_no_present present m (fun i hi1 hi2 => hfirst i hi1 (by omega))]
      have hk : ¬ pollTimeoutMs < pollIntervalMs * (m + 1) := by
        simp only [pollTimeoutMs, pollIntervalMs]
        omega
      simp [pollTick, hk, hp]

/-- C6: the bootstrap poll is bounded and fires at most once — `initUI` is
invoked by the poll at most once over any horizon; no tick past the 10 s
timeout (tick 20) changes anything; on the first tick (within the timeout)
at which the root element is present and unmarked, the poll sets the
marker, runs activation exactly once and stops; and if the root never
appears within the timeout, activation is never run by the poll. -/
theorem c6_bounded_poll (present : Nat → Bool) (n : Nat) :
    (pollRun present n).initCount ≤ 1 ∧
    (20 ≤ n → pollRun present n = pollRun present 20) ∧
    (∀ j, 1 ≤ j → j ≤ 20 → present j = true →
      (∀ i, 1 ≤ i → i < j → present i = false) → j ≤ n →
      pollRun present n = { cleared := true, markerSet := true, initCount := 1 }) ∧
    ((∀ k, 1 ≤ k → k ≤ 20 → present k = false) →
      (pollRun present n).initCount = 0) := by
  refine ⟨?_, pollRun_after_timeout present n, ?_, ?_⟩
  · cases hm : (pollRun present n).markerSet with
    | false => rw [(pollRun_inv present n).1 hm]; omega
    | true => rw [((pollRun_inv present n).2 hm).1]
  · intro j hj1 hj20 hp hfirst hjn
    have hsucc := pollRun_success present j hj1 hj20 hp hfirst
    have hc : (pollRun present j).cleared = true := by rw [hsucc]
    rw [pollRun_frozen present j hc n hjn, hsucc]
  · intro hnone
    by_cases hn20 : n ≤ 20
    · rw [pollRun_no_present present n (fun i hi1 hi2 => hnone i hi1 (by omega))]
    · rw [pollRun_after_timeout present n (by omega),
        pollRun_no_present present 20 (fun i hi1 hi2 => hnone i hi1 hi2)]

/-- Witness for C6: the root element appears at tick 3; over a 25-tick
horizon the poll has run activation exactly once and stopped. -/
theorem c6_bounded_poll_witness :
    pollRun (fun k => k == 3) 25 =
      { cleared := true, markerSet := true, initCount := 1 } :=
  (c6_bounded_poll (fun k => k == 3) 25).2.2.1 3 (by omega) (by omega) (by decide)
    (fun i hi1 hi2 => by
      have : i ≠ 3 := by omega
      simpa using this)
    (by omega)

-- ===== C7 / C9: INITIALIZATION =====

theorem setTheme_fields_valid (t : String) (w : DomWorld) (hv : t ∈ themes)
    (ha : w.appPresent = true) :
    (setTheme t w).storage = storeSet w.storage themeKey t ∧
    (setTheme t w).appAttrs = storeSet w.appAttrs "data-theme" t := by
  simp [setTheme, hv, ha]

theorem setTheme_no_app_fields (t : String) (w : DomWorld)
    (ha : w.appPresent = false) :
    (setTheme t w).storage = w.storage ∧ (setTheme t w).appAttrs = w.appAttrs := by
  by_cases h : t ∈ themes <;> simp [setTheme, h, ha]

theorem enhanceWorld_storage (w : DomWorld) : (enhanceWorld w).storage = w.storage := rfl

theorem enhanceWorld_appAttrs (w : DomWorld) : (enhanceWorld w).appAttrs = w.appAttrs := rfl

theorem handleResize_storage (w : DomWorld) : (handleResize w).storage = w.storage := by
  unfold handleResize
  split
  · rfl
  · split <;> rfl

theorem handleResize_appAttrs (w : DomWorld) : (handleResize w).appAttrs = w.appAttrs := by
  unfold handleResize
  split
  · rfl
  · split <;> rfl

theorem applySavedSidebarState_storage (w : DomWorld) :
    (applySavedSidebarState w).storage = w.storage := by
  simp only [applySavedSidebarState]
  split <;> rfl

theorem applySavedSidebarState_theme_attr (w : DomWorld) :
    storeGet (applySavedSidebarState w).appAttrs "data-theme" =
      storeGet w.appAttrs "data-theme" := by
  simp only [applySavedSidebarState]
  split
  · exact storeGet_set_ne _ _ _ _ (by decide)
  · rfl

/-- C7: theme persistence round-trip — after `setTheme("Dark")` with the
root element present, a fresh activation (`initUI` over any fresh DOM
state sharing the same persistence backend) reads the active theme back as
"Dark", and re-applies it to the root element whenever one is present. -/
theorem c7_theme_roundtrip (w wf : DomWorld) (happ : w.appPresent = true) :
    getTheme (initUI { wf with storage := (setTheme "Dark" w).storage }).storage = "Dark" ∧
    (wf.appPresent = true →
      storeGet (initUI { wf with storage := (setTheme "Dark" w).storage }).appAttrs
        "data-theme" = some "Dark") := by
  have hg : getTheme ((setTheme "Dark" w).storage) = "Dark" :=
    getTheme_setTheme_valid "Dark" w (by decide) happ
  set w2 : DomWorld := { wf with storage := (setTheme "Dark" w).storage } with hw2
  have hg2 : getTheme w2.storage = "Dark" := hg
  have hbody : initUI w2 =
      handleResize (enhanceWorld (applySavedSidebarState
        (setTheme (getTheme w2.storage) w2))) := rfl
  rw [hbody, hg2]
  constructor
  · rw [handleResize_storage, enhanceWorld_storage, applySavedSidebarState_storage]
    by_cases hwf : wf.appPresent = true
    · exact getTheme_setTheme_valid "Dark" w2 (by decide) hwf
    · have h0 : w2.appPresent = false := by
        simp only [Bool.not_eq_true] at hwf
        exact hwf
      rw [(setTheme_no_app_fields "Dark" w2 h0).1]
      exact hg2
  · intro hwf
    rw [handleResize_appAttrs, enhanceWorld_appAttrs, applySavedSidebarState_theme_attr]
    rw [(setTheme_fields_valid "Dark" w2 (by decide) hwf).2]
    exact storeGet_set_eq _ _ _

/-- The base world used in the C7 witness. -/
def c7Base : DomWorld := { appPresent := true }

/-- Witness for C7 at concrete worlds (root element present both times). -/
theorem c7_theme_roundtrip_witness :
    getTheme (initUI { c7Base with
      storage := (setTheme "Dark" c7Base).storage }).storage = "Dark" ∧
    storeGet (initUI { c7Base with
      storage := (setTheme "Dark" c7Base).storage }).appAttrs "data-theme" =
      some "Dark" :=
  ⟨(c7_theme_roundtrip c7Base c7Base rfl).1,
   (c7_theme_roundtrip c7Base c7Base rfl).2 rfl⟩

/-- C9: the failure boundary of `initUI` — the routine always returns
normally: a body that completes yields its result, and for every fault
raised anywhere in the body, the fault is caught, logged via
`console.error`, and swallowed; `initUI` itself is this boundary applied
to the embedded body. -/
theorem c9_initUI_failure_boundary (body : DomWorld → Except InitFault DomWorld)
    (w : DomWorld) :
    (∀ w2, body w = .ok w2 → initUIWith body w = w2) ∧
    (∀ e wt, body w = .error (e, wt) →
      initUIWith body w =
        { wt with errors := wt.errors ++ ["Error initializing UI: " ++ e] }) ∧
    initUI w = initUIWith initUIBody w := by
  refine ⟨fun w2 h => ?_, fun e wt h => ?_, rfl⟩
  · simp [initUIWith, h]
  · simp [initUIWith, h]

/-- Witness for C9: a body that throws — the fault is logged and the
boundary returns normally with the thrown-time world. -/
theorem c9_initUI_failure_boundary_witness :
    initUIWith (fun w => .error ("boom", w)) {} =
      { ({} : DomWorld) with
        errors := ({} : DomWorld).errors ++ ["Error initializing UI: " ++ "boom"] } :=
  (c9_initUI_failure_boundary (fun w => .error ("boom", w)) {}).2.1 "boom" {} rfl
